import Mathlib

/-!
Shallow embedding of the Lalamove profitability calculator's core pipeline:
the configuration constants, the fare-deduction breakdown, the profitability
computation with its rating thresholds, the fuel-cost estimator, the wait-time
estimator, the multi-stop router with its haversine fallback, and the
geocoder's coordinate branch with building-type classification.

JavaScript numbers are modelled as exact rationals (reals for the
trigonometric haversine fallback); fallible functions return `Option` or
`Except`; external network calls (routing service, reverse geocoding, address
search) are oracle parameters.  JavaScript object indexing (`TABLE[key]`) is
modelled as a total lookup function; for `WAIT_TIMES`, whose looked-up value
is read field-by-field after a truthiness guard, the lookup also models the
`Object.prototype` chain (a truthy inherited member with no table fields).
-/

namespace Lalamove

/-! ## config.js -/

structure TrafficCondInfo where
  label : String
  speedKmH : ℚ
  icon : String
deriving DecidableEq

structure Defaults where
  petrolPrice : ℚ
  pickupWaitMinutes : ℚ
  averageSpeedKmH : ℚ
deriving DecidableEq

structure FareDeductions where
  commissionRate : ℚ
  vatRate : ℚ
  cpfWithholdingRate : ℚ
  platformFeeOffset : ℚ
deriving DecidableEq

structure Config where
  defaults : Defaults
  fareDeductions : FareDeductions
deriving DecidableEq

/-- Modelled from the spec: the `fareDeductions` block of `CONFIG`
(`commissionRate` 0.15, `vatRate` 0.09, `cpfWithholdingRate` 0,
`platformFeeOffset` 0.50).  `calculateFareBreakdown` in
`services/profitability.js` destructures `CONFIG.fareDeductions`, but the
`config.js` snapshot available in the sources stops at the
`api`/`defaults`/`limits`/`traffic` blocks; the rate values are taken from the
specification (§4.5) and from the repository README, which record the same
numbers. -/
def fareDeductionsConfig : FareDeductions :=
  { commissionRate := 15/100, vatRate := 9/100,
    cpfWithholdingRate := 0, platformFeeOffset := 50/100 }

def CONFIG : Config :=
  { defaults := { petrolPrice := 287/100, pickupWaitMinutes := 6, averageSpeedKmH := 25 },
    fareDeductions := fareDeductionsConfig }

/-- `CONFIG.traffic.conditions` as a key-to-entry lookup: indexing the object
with any other key (including the coerced `"null"`/`"undefined"` keys) yields
no entry, i.e. `none`.  Collapsing a prototype-chain hit with `undefined` is
sound here because the only read is `?.speedKmH ?? default`, and an inherited
`Object.prototype` member carries no `speedKmH` field, so both give the
default speed. -/
def trafficConditions (key : String) : Option TrafficCondInfo :=
  if key = "light" then some { label := "Light Traffic", speedKmH := 35, icon := "🟢" }
  else if key = "normal" then some { label := "Normal Traffic", speedKmH := 25, icon := "🟡" }
  else if key = "heavy" then some { label := "Heavy Traffic", speedKmH := 15, icon := "🔴" }
  else none

structure WaitTimeInfo where
  minutes : ℚ
  label : String
  description : String
deriving DecidableEq

def WAIT_TIMES_default : WaitTimeInfo :=
  { minutes := 5, label := "Unknown", description := "Default estimate" }

/-- The property names every plain object literal inherits from
`Object.prototype`: bracket lookup with one of these keys yields the inherited
member (a function, or `Object.prototype` itself for `__proto__`), which is
truthy but carries none of the table's fields. -/
def objectPrototypeKeys : List String :=
  ["constructor", "hasOwnProperty", "isPrototypeOf", "propertyIsEnumerable",
   "toLocaleString", "toString", "valueOf", "__proto__",
   "__defineGetter__", "__defineSetter__", "__lookupGetter__", "__lookupSetter__"]

/-- The result of a JavaScript bracket lookup on a plain object literal of
`WaitTimeInfo` entries: an own entry, a truthy member inherited from
`Object.prototype`, or `undefined`. -/
inductive JsProp where
  | own (info : WaitTimeInfo)
  | inherited
  | undefined
deriving DecidableEq

/-- Reading `.minutes` off a looked-up value: `undefined` (`none`) unless the
value is an own table entry. -/
def JsProp.minutes : JsProp → Option ℚ
  | .own info => some info.minutes
  | _ => none

/-- Reading `.label` off a looked-up value. -/
def JsProp.label : JsProp → Option String
  | .own info => some info.label
  | _ => none

/-- Reading `.description` off a looked-up value. -/
def JsProp.description : JsProp → Option String
  | .own info => some info.description
  | _ => none

/-- `WAIT_TIMES[key]`: the own entries first, then the `Object.prototype`
chain, then `undefined`. -/
def WAIT_TIMES (key : String) : JsProp :=
  if key = "hdb" then .own { minutes := 3, label := "HDB", description := "Meet at void deck" }
  else if key = "condo" then .own { minutes := 7, label := "Condo", description := "Security + lift wait" }
  else if key = "office" then .own { minutes := 10, label := "Office", description := "Reception + lift + navigation" }
  else if key = "mall" then .own { minutes := 8, label := "Mall", description := "Navigate to unit" }
  else if key = "landed" then .own { minutes := 2, label := "Landed", description := "Direct handover" }
  else if key = "industrial" then .own { minutes := 5, label := "Industrial", description := "Loading bay access" }
  else if key = "default" then .own WAIT_TIMES_default
  else if key ∈ objectPrototypeKeys then .inherited
  else .undefined

structure ProfitThreshold where
  min : ℚ
  color : String
  label : String
  emoji : String
deriving DecidableEq

structure ProfitThresholds where
  excellent : ProfitThreshold
  good : ProfitThreshold
  okay : ProfitThreshold
  poor : ProfitThreshold
deriving DecidableEq

def PROFIT_THRESHOLDS : ProfitThresholds :=
  { excellent := { min := 20, color := "#059669", label := "🔥 Excellent", emoji := "🔥" },
    good := { min := 15, color := "#22c55e", label := "✅ Good", emoji := "✅" },
    okay := { min := 10, color := "#eab308", label := "⚠️ Okay", emoji := "⚠️" },
    poor := { min := 0, color := "#ef4444", label := "❌ Poor", emoji := "❌" } }

/-- `getTrafficSpeed`:
`CONFIG.traffic.conditions[condition]?.speedKmH ?? CONFIG.defaults.averageSpeedKmH`.
The argument is an `Option` so that `null`/`undefined` callers are covered
(those index the object with a key it does not carry and get `undefined`). -/
def getTrafficSpeed (condition : Option String) : ℚ :=
  ((condition.bind trafficConditions).map TrafficCondInfo.speedKmH).getD
    CONFIG.defaults.averageSpeedKmH

/-! ## services/profitability.js -/

structure FareBreakdown where
  grossFare : ℚ
  baseFare : ℚ
  commission : ℚ
  vat : ℚ
  cpfWithholding : ℚ
  platformFee : ℚ
  totalDeductions : ℚ
  netFare : ℚ
deriving DecidableEq

def calculateFareBreakdown (grossFare : ℚ) : FareBreakdown :=
  let commissionRate := CONFIG.fareDeductions.commissionRate
  let vatRate := CONFIG.fareDeductions.vatRate
  let cpfWithholdingRate := CONFIG.fareDeductions.cpfWithholdingRate
  let platformFeeOffset := CONFIG.fareDeductions.platformFeeOffset
  let baseFare := grossFare - platformFeeOffset
  let commission := baseFare * commissionRate
  let vat := baseFare * vatRate
  let cpfWithholding := baseFare * cpfWithholdingRate
  let platformFee := platformFeeOffset
  let totalDeductions := commission + vat + cpfWithholding + platformFee
  let netFare := grossFare - totalDeductions
  { grossFare, baseFare, commission, vat, cpfWithholding, platformFee,
    totalDeductions, netFare }

def getRating (profitPerHour : ℚ) : String :=
  if profitPerHour ≥ PROFIT_THRESHOLDS.excellent.min then "excellent"
  else if profitPerHour ≥ PROFIT_THRESHOLDS.good.min then "good"
  else if profitPerHour ≥ PROFIT_THRESHOLDS.okay.min then "okay"
  else "poor"

/-- `PROFIT_THRESHOLDS[rating]` as a key-to-entry lookup. -/
def profitThresholdFor (key : String) : Option ProfitThreshold :=
  if key = "excellent" then some PROFIT_THRESHOLDS.excellent
  else if key = "good" then some PROFIT_THRESHOLDS.good
  else if key = "okay" then some PROFIT_THRESHOLDS.okay
  else if key = "poor" then some PROFIT_THRESHOLDS.poor
  else none

structure ProfitabilityParams where
  fare : ℚ
  fuelCost : ℚ
  travelMinutes : ℚ
  waitMinutes : ℚ
  /-- `none` models an omitted argument, defaulted to
  `CONFIG.defaults.pickupWaitMinutes` by the destructuring default. -/
  pickupWaitMinutes : Option ℚ
deriving DecidableEq

structure TimeCostBreakdown where
  travelMinutes : ℚ
  waitMinutes : ℚ
  pickupWaitMinutes : ℚ
  fuelCostPercentage : ℚ
deriving DecidableEq

structure ProfitabilityResult where
  fare : ℚ
  netFare : ℚ
  fareBreakdown : FareBreakdown
  fuelCost : ℚ
  netProfit : ℚ
  totalTimeMinutes : ℚ
  profitPerHour : ℚ
  rating : String
  ratingDetails : Option ProfitThreshold
  breakdown : TimeCostBreakdown
deriving DecidableEq

def calculateProfitability (params : ProfitabilityParams) : ProfitabilityResult :=
  let pickupWaitMinutes := params.pickupWaitMinutes.getD CONFIG.defaults.pickupWaitMinutes
  let fareBreakdown := calculateFareBreakdown params.fare
  let netFare := fareBreakdown.netFare
  let netProfit := netFare - params.fuelCost
  let totalTimeMinutes := params.travelMinutes + params.waitMinutes + pickupWaitMinutes
  let totalTimeHours := totalTimeMinutes / 60
  let profitPerHour := if totalTimeHours > 0 then netProfit / totalTimeHours else 0
  let rating := getRating profitPerHour
  { fare := params.fare, netFare, fareBreakdown, fuelCost := params.fuelCost,
    netProfit, totalTimeMinutes, profitPerHour, rating,
    ratingDetails := profitThresholdFor rating,
    breakdown := { travelMinutes := params.travelMinutes,
                   waitMinutes := params.waitMinutes,
                   pickupWaitMinutes,
                   fuelCostPercentage :=
                     if netFare > 0 then params.fuelCost / netFare * 100 else 0 } }

/-! ## services/fuel.js -/

structure FuelCost where
  litresUsed : ℚ
  cost : ℚ
  /-- `cost / distanceKm`; `none` models the non-finite JavaScript result of
  dividing by a zero distance (`NaN`), which the source returns rather than
  raising. -/
  costPerKm : Option ℚ
deriving DecidableEq

def isValidEfficiency (efficiency : ℚ) : Bool :=
  efficiency > 0 && efficiency ≤ 100

def calculateFuelCost (distanceKm efficiencyKmPerL pricePerLitre : ℚ) :
    Except String FuelCost :=
  if !(isValidEfficiency efficiencyKmPerL) then
    .error ("Invalid fuel efficiency: " ++ toString efficiencyKmPerL)
  else if pricePerLitre ≤ 0 then
    .error ("Invalid petrol price: " ++ toString pricePerLitre)
  else
    let litresUsed := distanceKm / efficiencyKmPerL
    let cost := litresUsed * pricePerLitre
    .ok { litresUsed, cost,
          costPerKm := if distanceKm = 0 then none else some (cost / distanceKm) }

/-! ## services/wait-time.js -/

structure WaitEstimate where
  /-- `Option` because a prototype-chain hit carries no `minutes` field:
  the property read then yields `undefined`. -/
  minutes : Option ℚ
  buildingType : String
  label : Option String
  description : Option String
  isOverride : Bool
deriving DecidableEq

/-- `estimateWaitTime`.  The `||` guard replaces only a falsy lookup
(`undefined`) with the default entry; a truthy inherited member passes
through, and its field reads yield `undefined`. -/
def estimateWaitTime (buildingType : String) : WaitEstimate :=
  let config : JsProp :=
    match WAIT_TIMES buildingType with
    | .undefined => .own WAIT_TIMES_default
    | p => p
  { minutes := config.minutes, buildingType, label := config.label,
    description := config.description, isOverride := false }

/-! ## api/onemap.js — haversine fallback distance

The trigonometric fallback is modelled over the reals; `Math.atan2` is spelled
out by the cases of its JavaScript definition. -/

noncomputable section

/-- JavaScript `Math.atan2 y x` on (finite, non-signed-zero) real inputs. -/
def atan2 (y x : ℝ) : ℝ :=
  if 0 < x then Real.arctan (y / x)
  else if x < 0 then
    (if 0 ≤ y then Real.arctan (y / x) + Real.pi else Real.arctan (y / x) - Real.pi)
  else if 0 < y then Real.pi / 2
  else if y < 0 then -(Real.pi / 2)
  else 0

def toRad (deg : ℝ) : ℝ := deg * (Real.pi / 180)

/-- `calculateStraightLineDistance` — haversine great-circle distance in km
between two `(lat, lng)` pairs, with Earth radius 6371 km. -/
def calculateStraightLineDistance (start stop : ℝ × ℝ) : ℝ :=
  let R : ℝ := 6371
  let dLat := toRad (stop.1 - start.1)
  let dLng := toRad (stop.2 - start.2)
  let a := Real.sin (dLat / 2) * Real.sin (dLat / 2) +
    Real.cos (toRad start.1) * Real.cos (toRad stop.1) *
      Real.sin (dLng / 2) * Real.sin (dLng / 2)
  let c := 2 * atan2 (Real.sqrt a) (Real.sqrt (1 - a))
  R * c

/-! ## services/routing.js -/

/-- A geocoded location as consumed by the router (`lat`, `lng`, `address`). -/
structure GeoLoc where
  lat : ℝ
  lng : ℝ
  address : String

/-- The `route_summary` of a successful routing-service response:
total distance in metres, total time in seconds. -/
structure RouteSummary where
  total_distance : ℝ
  total_time : ℝ

structure RouteLeg where
  fromAddress : String
  toAddress : String
  distanceKm : ℝ
  timeMinutes : ℝ
  isEstimate : Bool

structure FullRoute where
  legs : List RouteLeg
  totalDistanceKm : ℝ
  totalTravelMinutes : ℝ
  hasEstimates : Bool
  trafficCondition : String

/-- `sumBy` — `arr.reduce((sum, item) => sum + item[key], 0)` over a leg
field (the `|| 0` guard only matters for `NaN`/missing values, which the
real-valued embedding does not produce). -/
def sumBy (legs : List RouteLeg) (f : RouteLeg → ℝ) : ℝ :=
  legs.foldl (fun sum item => sum + f item) 0

/-- `calculateRouteLeg` — one leg via the external routing service.  The
`getRoute` network call is an oracle parameter; `none` models any thrown
`OneMapError` (network failure, auth failure, malformed response). -/
def calculateRouteLeg (getRoute : ℝ × ℝ → ℝ × ℝ → Option RouteSummary)
    (start stop : GeoLoc) (trafficCondition : Option String) : Option RouteLeg :=
  (getRoute (start.lat, start.lng) (stop.lat, stop.lng)).map fun routeData =>
    let distanceKm := routeData.total_distance / 1000
    let apiTimeMinutes := routeData.total_time / 60
    let trafficSpeed := (getTrafficSpeed trafficCondition : ℝ)
    let normalSpeed := (CONFIG.defaults.averageSpeedKmH : ℝ)
    { fromAddress := start.address, toAddress := stop.address,
      distanceKm, timeMinutes := apiTimeMinutes * (normalSpeed / trafficSpeed),
      isEstimate := false }

/-- `estimateRouteLeg` — fallback leg from the straight-line distance with the
1.4 road factor and the traffic-adjusted speed. -/
def estimateRouteLeg (start stop : GeoLoc) (trafficCondition : Option String) : RouteLeg :=
  let straightLineKm :=
    calculateStraightLineDistance (start.lat, start.lng) (stop.lat, stop.lng)
  let estimatedDistanceKm := straightLineKm * 1.4
  let speed := (getTrafficSpeed trafficCondition : ℝ)
  { fromAddress := start.address, toAddress := stop.address,
    distanceKm := estimatedDistanceKm,
    timeMinutes := estimatedDistanceKm / speed * 60,
    isEstimate := true }

/-- The legs loop of `calculateMultiStopRoute`: consecutive pairs of points
(`points.zip points.tail` is `(points[i], points[i+1])` for
`i < points.length - 1`), each via the API when it succeeds and via the
estimate on any failure. -/
def routeLegs (getRoute : ℝ × ℝ → ℝ × ℝ → Option RouteSummary)
    (points : List GeoLoc) (traffic : String) : List RouteLeg :=
  (points.zip points.tail).map fun se =>
    match calculateRouteLeg getRoute se.1 se.2 (some traffic) with
    | some leg => leg
    | none => estimateRouteLeg se.1 se.2 (some traffic)

/-- `calculateMultiStopRoute`.  `trafficCondition = none` models the `null`
default, in which case the auto-detected condition (`detectTrafficCondition`,
a function of the current Singapore wall-clock hour, here the oracle parameter
`detectedCondition`) is used.  The loop's `hasEstimates` accumulator is `true`
exactly when some pushed leg has `isEstimate = true` (API legs always carry
`isEstimate = false`), so it is modelled as `legs.any`. -/
def calculateMultiStopRoute (getRoute : ℝ × ℝ → ℝ × ℝ → Option RouteSummary)
    (points : List GeoLoc) (trafficCondition : Option String)
    (detectedCondition : String) : Except String FullRoute :=
  if points.length < 2 then .error "Need at least 2 points for a route"
  else
    let traffic := trafficCondition.getD detectedCondition
    let legs := routeLegs getRoute points traffic
    .ok { legs,
          totalDistanceKm := sumBy legs RouteLeg.distanceKm,
          totalTravelMinutes := sumBy legs RouteLeg.timeMinutes,
          hasEstimates := legs.any RouteLeg.isEstimate,
          trafficCondition := traffic }

/-! Concrete fixtures used by the routing witnesses. -/

/-- A routing-service oracle that fails (throws) on every leg. -/
def noApi : ℝ × ℝ → ℝ × ℝ → Option RouteSummary := fun _ _ => none

def locA : GeoLoc := { lat := 13/10, lng := 519/5, address := "Start" }

def locB : GeoLoc := { lat := 13/10, lng := 519/5, address := "Stop" }

end

/-! ## services/geocoding.js

String membership (`String.prototype.includes`) and the `BLK\s*\d+` regex test
are implemented character-by-character so that they stay kernel-executable. -/

def listStartsWith : List Char → List Char → Bool
  | [], _ => true
  | _ :: _, [] => false
  | p :: ps, h :: hs => p == h && listStartsWith ps hs

/-- `hay` contains `pat` as a contiguous subsequence. -/
def listContainsSeq : List Char → List Char → Bool
  | [], pat => pat.isEmpty
  | c :: t, pat => listStartsWith pat (c :: t) || listContainsSeq t pat

/-- `s.includes(pat)` for a non-empty literal `pat`. -/
def strContains (s pat : String) : Bool :=
  listContainsSeq s.toList pat.toList

/-- The regex `BLK\s*\d+` matches at the head of `cs`. -/
def blkDigitAt (cs : List Char) : Bool :=
  match cs with
  | 'B' :: 'L' :: 'K' :: rest =>
    match rest.dropWhile Char.isWhitespace with
    | c :: _ => c.isDigit
    | [] => false
  | _ => false

/-- `/BLK\s*\d+/.test(text)`: the pattern matches somewhere in the text. -/
def blkDigitScan : List Char → Bool
  | [] => false
  | c :: t => blkDigitAt (c :: t) || blkDigitScan t

/-- Digit run to a natural number. -/
def digitsToNat (ds : List Char) : ℕ :=
  ds.foldl (fun acc c => 10 * acc + (c.toNat - '0'.toNat)) 0

/-- Parse the regex fragment `\d+\.?\d*` at the head of `cs` and return its
`parseFloat` value with the remaining characters. -/
def parseDecimal (cs : List Char) : Option (ℚ × List Char) :=
  let intSpan := cs.span Char.isDigit
  if intSpan.1.isEmpty then none
  else
    match intSpan.2 with
    | '.' :: rest2 =>
      let fracSpan := rest2.span Char.isDigit
      some ((digitsToNat intSpan.1 : ℚ) +
              (digitsToNat fracSpan.1 : ℚ) / (10 ^ fracSpan.1.length : ℚ),
            fracSpan.2)
    | rest => some ((digitsToNat intSpan.1 : ℚ), rest)

/-- Parse the regex fragment `-?\d+\.?\d*`. -/
def parseSignedDecimal (cs : List Char) : Option (ℚ × List Char) :=
  match cs with
  | '-' :: rest => (parseDecimal rest).map fun vr => (-vr.1, vr.2)
  | _ => parseDecimal cs

/-- JavaScript `String.prototype.trim()`: strip leading and trailing
whitespace (spelled out structurally on the character list). -/
def jsTrim (s : String) : String :=
  String.mk
    (((s.toList.dropWhile Char.isWhitespace).reverse.dropWhile
        Char.isWhitespace).reverse)

/-- `parseCoordinates`: trims the input, matches
`^(-?\d+\.?\d*)\s*,\s*(-?\d+\.?\d*)$`, and accepts the pair only inside the
Singapore bounding box (lat ∈ [1.1, 1.5], lng ∈ [103.6, 104.1]).
`none` models `{isCoordinates: false}`. -/
def parseCoordinates (input : String) : Option (ℚ × ℚ) :=
  match parseSignedDecimal (jsTrim input).toList with
  | none => none
  | some (lat, r1) =>
    match r1.dropWhile Char.isWhitespace with
    | ',' :: r2 =>
      match parseSignedDecimal (r2.dropWhile Char.isWhitespace) with
      | some (lng, []) =>
        if 11/10 ≤ lat ∧ lat ≤ 3/2 ∧ 518/5 ≤ lng ∧ lng ≤ 1041/10 then
          some (lat, lng)
        else none
      | _ => none
    | _ => none

/-- JavaScript `String.prototype.toUpperCase()` (spelled out structurally on
the character list; the inputs of interest are ASCII). -/
def jsToUpperCase (s : String) : String :=
  String.mk (s.toList.map Char.toUpper)

/-- A reverse-geocode result (`GeocodeInfo[0]`); `none` fields model
properties absent from the JSON object. -/
structure ReverseResult where
  BUILDINGNAME : Option String
  BLOCK : Option String
  ROAD : Option String
  POSTALCODE : Option String
  ADDRESS : Option String
deriving DecidableEq

/-- JavaScript truthiness of a possibly-missing string property. -/
def jsTruthy : Option String → Bool
  | some v => v != ""
  | none => false

/-- `x || dflt` for a possibly-missing string property `x`. -/
def jsOr (s : Option String) (dflt : String) : String :=
  if jsTruthy s then s.getD "" else dflt

def formatReverseGeocodeAddress (result : ReverseResult) : String :=
  let parts : List String :=
    (if jsTruthy result.BUILDINGNAME && result.BUILDINGNAME.getD "" != "NIL" then
      [result.BUILDINGNAME.getD ""] else []) ++
    (if jsTruthy result.BLOCK && result.BLOCK.getD "" != "NIL" then
      ["Blk " ++ result.BLOCK.getD ""] else []) ++
    (if jsTruthy result.ROAD && result.ROAD.getD "" != "NIL" then
      [result.ROAD.getD ""] else []) ++
    (if jsTruthy result.POSTALCODE && result.POSTALCODE.getD "" != "NIL" then
      ["Singapore " ++ result.POSTALCODE.getD ""] else [])
  if parts.length > 0 then String.intercalate ", " parts
  else jsOr result.ADDRESS "Unknown Location"

def detectBuildingTypeFromReverse (result : ReverseResult) : String :=
  let building := jsToUpperCase (jsOr result.BUILDINGNAME "")
  let road := jsToUpperCase (jsOr result.ROAD "")
  let combined := building ++ " " ++ road
  if strContains combined "HDB" || jsTruthy result.BLOCK then "hdb"
  else if strContains combined "CONDO" || strContains combined "RESIDENCE" ||
      strContains combined "TOWER" || strContains combined "HEIGHTS" then "condo"
  else if strContains combined "MALL" || strContains combined "SHOPPING" ||
      strContains combined "PLAZA" then "mall"
  else if strContains combined "OFFICE" || strContains combined "BUILDING" ||
      strContains combined "CENTRE" || strContains combined "CENTER" then "office"
  else if strContains combined "INDUSTRIAL" || strContains combined "TECHPARK" ||
      strContains combined "WAREHOUSE" then "industrial"
  else "default"

/-- Left-pad with zeros to `n` characters. -/
def padZeros (s : String) (n : ℕ) : String :=
  String.mk (List.replicate (n - s.length) '0') ++ s

def toFixed6Nat (m : ℕ) : String :=
  toString (m / 1000000) ++ "." ++ padZeros (toString (m % 1000000)) 6

/-- `Number.prototype.toFixed(6)`: the integer `n` with `n / 10^6` closest to
the value (ties towards the larger `n`), rendered with six decimals. -/
def toFixed6 (q : ℚ) : String :=
  let n : ℤ := ⌊q * 1000000 + 1/2⌋
  if n < 0 then "-" ++ toFixed6Nat n.natAbs else toFixed6Nat n.toNat

structure Location where
  lat : ℚ
  lng : ℚ
  address : String
  postalCode : String
  buildingType : String
  buildingName : String
  raw : Option ReverseResult
deriving DecidableEq

/-- `geocodeAddress`.  The `reverseGeocode` network call is an oracle
parameter with `none` modelling a thrown `OneMapError`.  The non-coordinate
branch (lines 87–99 of the source: `searchAddress` plus processing of its
first, network-determined result) is abstracted as the `searchBranch` oracle —
the coordinate branch, which this embedding spells out in full, never reaches
it. -/
def geocodeAddress (reverseGeocode : ℚ → ℚ → Option ReverseResult)
    (searchBranch : String → Except String Location)
    (addressInput : String) : Except String Location :=
  match parseCoordinates addressInput with
  | some (lat, lng) =>
    match reverseGeocode lat lng with
    | some reverseResult =>
      .ok { lat, lng,
            address := formatReverseGeocodeAddress reverseResult,
            postalCode := jsOr reverseResult.POSTALCODE "",
            buildingType := detectBuildingTypeFromReverse reverseResult,
            buildingName := jsOr reverseResult.BUILDINGNAME "",
            raw := some reverseResult }
    | none =>
      .ok { lat, lng,
            address := toFixed6 lat ++ ", " ++ toFixed6 lng,
            postalCode := "", buildingType := "default", buildingName := "",
            raw := none }
  | none => searchBranch addressInput

/-- A forward search result.  The source only ever reads its `BUILDING`,
`SEARCHVAL` and `ADDRESS` fields through `(x || "")`, which collapses a
missing property and the empty string, so plain strings suffice. -/
structure SearchResult where
  BUILDING : String
  SEARCHVAL : String
  ADDRESS : String
deriving DecidableEq

def condoKeywords : List String :=
  ["CONDO", "CONDOMINIUM", "RESIDENCE", "RESIDENCES", "APARTMENT", "SUITES",
   "LODGE", "MANSIONS", "HEIGHTS", "GARDENS", "VILLA", "VILLAS", "COURT"]

def officeKeywords : List String :=
  ["TOWER", "TOWERS", "BUILDING", "CENTRE", "CENTER", "PLAZA", "COMPLEX",
   "HOUSE", "PLACE", "SQUARE", "OFFICE", "CORPORATE", "BUSINESS"]

def mallKeywords : List String :=
  ["MALL", "SHOPPING", "RETAIL", "CITY", "JUNCTION", "POINT", "MARKET", "MART"]

def industrialKeywords : List String :=
  ["INDUSTRIAL", "FACTORY", "WAREHOUSE", "LOGISTICS", "TECHPARK", "TECH PARK",
   "BIZPARK", "BIZ HUB", "INDUSTRIAL PARK", "IND PARK"]

def landedKeywords : List String :=
  ["TERRACE", "DRIVE", "AVENUE", "ROAD", "STREET", "LANE", "CLOSE",
   "CRESCENT", "WALK"]

def detectBuildingType (locationData : SearchResult) : String :=
  let building := jsToUpperCase locationData.BUILDING
  let searchVal := jsToUpperCase locationData.SEARCHVAL
  let address := jsToUpperCase locationData.ADDRESS
  let combined := building ++ " " ++ searchVal ++ " " ++ address
  if strContains combined "HDB" || blkDigitScan combined.toList ||
      strContains combined "BLOCK" then "hdb"
  else if condoKeywords.any (fun kw => strContains combined kw) then "condo"
  else if officeKeywords.any (fun kw => strContains combined kw) then "office"
  else if mallKeywords.any (fun kw => strContains combined kw) then "mall"
  else if industrialKeywords.any (fun kw => strContains combined kw) then "industrial"
  else if !(strContains combined "BLK") && !(strContains combined "#") &&
      landedKeywords.any (fun kw => strContains combined kw) &&
      (building == "" || decide (building.length < 3)) then "landed"
  else "default"

/-! Statement-side vocabulary for the classifier precedence claim: the
building/search-value/address concatenation and one membership signal per
keyword set, as the spec describes them. -/

def combinedText (ld : SearchResult) : String :=
  jsToUpperCase ld.BUILDING ++ " " ++ jsToUpperCase ld.SEARCHVAL ++ " " ++
    jsToUpperCase ld.ADDRESS

def hdbSignal (ld : SearchResult) : Bool :=
  strContains (combinedText ld) "HDB" || blkDigitScan (combinedText ld).toList ||
    strContains (combinedText ld) "BLOCK"

def condoSignal (ld : SearchResult) : Bool :=
  condoKeywords.any (fun kw => strContains (combinedText ld) kw)

def officeSignal (ld : SearchResult) : Bool :=
  officeKeywords.any (fun kw => strContains (combinedText ld) kw)

def mallSignal (ld : SearchResult) : Bool :=
  mallKeywords.any (fun kw => strContains (combinedText ld) kw)

def industrialSignal (ld : SearchResult) : Bool :=
  industrialKeywords.any (fun kw => strContains (combinedText ld) kw)

def landedSignal (ld : SearchResult) : Bool :=
  !(strContains (combinedText ld) "BLK") && !(strContains (combinedText ld) "#") &&
    landedKeywords.any (fun kw => strContains (combinedText ld) kw) &&
    (jsToUpperCase ld.BUILDING == "" || decide ((jsToUpperCase ld.BUILDING).length < 3))

/-! Concrete fixtures used by the geocoding theorems. -/

/-- A reverse-geocode oracle that fails (throws) on every lookup. -/
def failingReverse : ℚ → ℚ → Option ReverseResult := fun _ _ => none

/-- A stand-in forward-search branch (never reached on coordinate input). -/
def unusedSearchBranch : String → Except String Location :=
  fun term => .error ("No results found for " ++ term)

/-- The spec's precedence example as a search result. -/
def aljuniedExample : SearchResult :=
  { BUILDING := "", SEARCHVAL := "BLK 123 ALJUNIED CONDO", ADDRESS := "" }

/-- A search result matching no keyword set at all. -/
def unmatchedExample : SearchResult :=
  { BUILDING := "", SEARCHVAL := "", ADDRESS := "" }

/-! ## Claim theorems: fare breakdown, profitability, rating, fuel, wait time -/

/-- C1: for every gross fare `g ≥ 0`, `calculateFareBreakdown g` returns
`baseFare = g - 0.50`, `commission = 0.15 * (g - 0.50)`,
`vat = 0.09 * (g - 0.50)`, `cpfWithholding = 0`, `platformFee = 0.50`,
`totalDeductions = commission + vat + cpfWithholding + platformFee`, and
`netFare = g - 0.15 * (g - 0.50) - 0.09 * (g - 0.50) - 0.50`. -/
theorem calculateFareBreakdown_spec (g : ℚ) (_hg : 0 ≤ g) :
    (calculateFareBreakdown g).baseFare = g - 50/100 ∧
    (calculateFareBreakdown g).commission = 15/100 * (g - 50/100) ∧
    (calculateFareBreakdown g).vat = 9/100 * (g - 50/100) ∧
    (calculateFareBreakdown g).cpfWithholding = 0 ∧
    (calculateFareBreakdown g).platformFee = 50/100 ∧
    (calculateFareBreakdown g).totalDeductions =
      (calculateFareBreakdown g).commission + (calculateFareBreakdown g).vat +
        (calculateFareBreakdown g).cpfWithholding + (calculateFareBreakdown g).platformFee ∧
    (calculateFareBreakdown g).netFare =
      g - 15/100 * (g - 50/100) - 9/100 * (g - 50/100) - 50/100 := by
  refine ⟨?_, ?_, ?_, ?_, ?_, ?_, ?_⟩ <;>
    simp [calculateFareBreakdown, CONFIG, fareDeductionsConfig] <;> ring

/-- C1 witness at `g = 10`: `baseFare = 9.50`, `commission = 1.425`,
`vat = 0.855`, `netFare = 7.22`. -/
theorem calculateFareBreakdown_spec_witness :
    (0 : ℚ) ≤ 10 ∧
    (calculateFareBreakdown 10).baseFare = 19/2 ∧
    (calculateFareBreakdown 10).commission = 57/40 ∧
    (calculateFareBreakdown 10).vat = 171/200 ∧
    (calculateFareBreakdown 10).netFare = 361/50 := by
  obtain ⟨h1, h2, h3, _, _, _, h7⟩ := calculateFareBreakdown_spec 10 (by norm_num)
  refine ⟨by norm_num, ?_, ?_, ?_, ?_⟩
  · rw [h1]; norm_num
  · rw [h2]; norm_num
  · rw [h3]; norm_num
  · rw [h7]; norm_num

/-- C4: for every input `{fare, fuelCost, travelMinutes, waitMinutes,
pickupWaitMinutes}`, `calculateProfitability` returns
`netProfit = fareBreakdown.netFare - fuelCost`,
`totalTimeMinutes = travelMinutes + waitMinutes + pickupWaitMinutes`, and
`profitPerHour = netProfit / (totalTimeMinutes / 60)` when
`totalTimeMinutes > 0` and exactly `0` when `totalTimeMinutes = 0` —
it never divides by zero. -/
theorem calculateProfitability_spec (p : ProfitabilityParams) :
    (calculateProfitability p).netProfit =
      (calculateFareBreakdown p.fare).netFare - p.fuelCost ∧
    (calculateProfitability p).totalTimeMinutes =
      p.travelMinutes + p.waitMinutes +
        p.pickupWaitMinutes.getD CONFIG.defaults.pickupWaitMinutes ∧
    (0 < (calculateProfitability p).totalTimeMinutes →
      (calculateProfitability p).profitPerHour =
        (calculateProfitability p).netProfit /
          ((calculateProfitability p).totalTimeMinutes / 60)) ∧
    ((calculateProfitability p).totalTimeMinutes = 0 →
      (calculateProfitability p).profitPerHour = 0) := by
  have htt : (calculateProfitability p).totalTimeMinutes =
      p.travelMinutes + p.waitMinutes +
        p.pickupWaitMinutes.getD CONFIG.defaults.pickupWaitMinutes := rfl
  have hnp : (calculateProfitability p).netProfit =
      (calculateFareBreakdown p.fare).netFare - p.fuelCost := rfl
  have hph : (calculateProfitability p).profitPerHour =
      if (calculateProfitability p).totalTimeMinutes / 60 > 0 then
        (calculateProfitability p).netProfit /
          ((calculateProfitability p).totalTimeMinutes / 60)
      else 0 := rfl
  refine ⟨hnp, htt, ?_, ?_⟩
  · intro hpos
    rw [hph, if_pos (div_pos hpos (by norm_num))]
  · intro hzero
    rw [hph, hzero]
    norm_num

/-- C4 witness at a concrete input with positive total time:
fare 10, fuel 2, 30 travel + 10 wait + 5 pickup minutes gives a total of
45 minutes and an hourly rate of `netProfit / (45 / 60)`. -/
theorem calculateProfitability_spec_witness :
    (0 : ℚ) <
      (calculateProfitability ⟨10, 2, 30, 10, some 5⟩).totalTimeMinutes ∧
    (calculateProfitability ⟨10, 2, 30, 10, some 5⟩).profitPerHour =
      (calculateProfitability ⟨10, 2, 30, 10, some 5⟩).netProfit /
        ((calculateProfitability ⟨10, 2, 30, 10, some 5⟩).totalTimeMinutes / 60) := by
  have ht : (0 : ℚ) <
      (calculateProfitability ⟨10, 2, 30, 10, some 5⟩).totalTimeMinutes := by
    rw [(calculateProfitability_spec ⟨10, 2, 30, 10, some 5⟩).2.1]
    norm_num
  exact ⟨ht, (calculateProfitability_spec ⟨10, 2, 30, 10, some 5⟩).2.2.1 ht⟩

/-- C5: `getRating` is a total partition of the rationals into the four bands,
each band's lower bound inclusive (`≥ 20` excellent, `≥ 15` good, `≥ 10` okay,
otherwise poor); in particular `20.00 ↦ excellent`, `19.99, 15.00 ↦ good`,
`14.99, 10.00 ↦ okay`, and `9.99 ↦ poor`. -/
theorem getRating_partition (x : ℚ) :
    (getRating x = "excellent" ∨ getRating x = "good" ∨
      getRating x = "okay" ∨ getRating x = "poor") ∧
    (getRating x = "excellent" ↔ 20 ≤ x) ∧
    (getRating x = "good" ↔ 15 ≤ x ∧ x < 20) ∧
    (getRating x = "okay" ↔ 10 ≤ x ∧ x < 15) ∧
    (getRating x = "poor" ↔ x < 10) ∧
    getRating 20 = "excellent" ∧ getRating (1999/100) = "good" ∧
    getRating 15 = "good" ∧ getRating (1499/100) = "okay" ∧
    getRating 10 = "okay" ∧ getRating (999/100) = "poor" := by
  have key : ∀ y : ℚ, getRating y =
      if 20 ≤ y then "excellent" else if 15 ≤ y then "good"
      else if 10 ≤ y then "okay" else "poor" := fun _ => rfl
  refine ⟨?_, ?_, ?_, ?_, ?_, ?_, ?_, ?_, ?_, ?_, ?_⟩
  · rw [key]; split_ifs <;> simp
  · rw [key]; split_ifs with h1 h2 h3 <;> simp [h1]
  · rw [key]; split_ifs with h1 h2 h3
    · simp only [String.reduceEq, false_iff, not_and, not_lt]
      intro _; linarith
    · simp only [String.reduceEq, true_iff]
      exact ⟨h2, by linarith⟩
    · simp only [String.reduceEq, false_iff, not_and, not_lt]
      intro h; exact absurd h h2
    · simp only [String.reduceEq, false_iff, not_and, not_lt]
      intro h; exact absurd h h2
  · rw [key]; split_ifs with h1 h2 h3
    · simp only [String.reduceEq, false_iff, not_and, not_lt]
      intro _; linarith
    · simp only [String.reduceEq, false_iff, not_and, not_lt]
      intro _; linarith
    · simp only [String.reduceEq, true_iff]
      exact ⟨h3, by linarith⟩
    · simp only [String.reduceEq, false_iff, not_and, not_lt]
      intro h; exact absurd h h3
  · rw [key]; split_ifs with h1 h2 h3
    · simp only [String.reduceEq, false_iff, not_lt]; linarith
    · simp only [String.reduceEq, false_iff, not_lt]; linarith
    · simp only [String.reduceEq, false_iff, not_lt]; linarith
    · simp only [String.reduceEq, true_iff]; linarith
  · norm_num [key]
  · norm_num [key]
  · norm_num [key]
  · norm_num [key]
  · norm_num [key]
  · norm_num [key]

/-- C6: `calculateFuelCost d e p` throws exactly when the efficiency `e` is
not in `(0, 100]` or the price `p ≤ 0`; for every `d` and valid `e`, `p` it
returns `litresUsed = d / e`, `cost = (d / e) * p` and
`costPerKm = cost / d` (non-finite, i.e. `none`, when `d = 0`) without
throwing. -/
theorem calculateFuelCost_spec (d e p : ℚ) :
    ((¬ (0 < e ∧ e ≤ 100) ∨ p ≤ 0) →
      ∃ msg, calculateFuelCost d e p = .error msg) ∧
    (0 < e → e ≤ 100 → 0 < p →
      calculateFuelCost d e p =
        .ok { litresUsed := d / e, cost := d / e * p,
              costPerKm := if d = 0 then none else some (d / e * p / d) }) := by
  constructor
  · intro h
    rcases h with h | h
    · have hv : isValidEfficiency e = false := by
        rcases not_and_or.mp h with h' | h'
        · simp [isValidEfficiency, h']
        · simp [isValidEfficiency, h']
      exact ⟨_, by unfold calculateFuelCost; rw [hv]; rfl⟩
    · by_cases hv : isValidEfficiency e
      · refine ⟨"Invalid petrol price: " ++ toString p, ?_⟩
        unfold calculateFuelCost
        rw [hv, if_neg (by simp : ¬ ((!true : Bool) = true)), if_pos h]
      · exact ⟨_, by unfold calculateFuelCost; rw [eq_false_of_ne_true hv]; rfl⟩
  · intro he1 he2 hp
    have hv : isValidEfficiency e = true := by
      unfold isValidEfficiency
      simp [he1, he2]
    unfold calculateFuelCost
    rw [hv]
    simp [not_le.mpr hp]

/-- C6 witness: valid inputs, once at distance 12 (finite cost-per-km) and
once at distance 0, where the cost is 0 and the cost-per-km is non-finite
(`none`) rather than an exception. -/
theorem calculateFuelCost_spec_witness :
    (0 : ℚ) < 45 ∧ (45 : ℚ) ≤ 100 ∧ (0 : ℚ) < 287/100 ∧
    calculateFuelCost 0 45 (287/100) = .ok { litresUsed := 0, cost := 0, costPerKm := none } ∧
    calculateFuelCost 12 45 (287/100) =
      .ok { litresUsed := 4/15, cost := 287/375, costPerKm := some (287/4500) } := by
  have h0 := (calculateFuelCost_spec 0 45 (287/100)).2 (by norm_num) (by norm_num) (by norm_num)
  have h12 := (calculateFuelCost_spec 12 45 (287/100)).2 (by norm_num) (by norm_num) (by norm_num)
  refine ⟨by norm_num, by norm_num, by norm_num, ?_, ?_⟩
  · rw [h0]; norm_num
  · rw [h12]; norm_num

/-- C9 counterexample to the claim as stated: `"constructor"` is not a key of
the wait-time table, yet `WAIT_TIMES["constructor"]` finds the truthy
inherited `Object.prototype.constructor`, the `||` default guard never fires,
and `estimateWaitTime "constructor"` returns `undefined` minutes — not the
table's 5-minute default entry. -/
theorem estimateWaitTime_prototype_counterexample :
    estimateWaitTime "constructor" =
      { minutes := none, buildingType := "constructor", label := none,
        description := none, isOverride := false } ∧
    estimateWaitTime "constructor" ≠
      { minutes := some 5, buildingType := "constructor", label := some "Unknown",
        description := some "Default estimate", isOverride := false } := by
  constructor
  · decide
  · decide

/-- C9 (amended: the universal must also exclude the property names inherited
from `Object.prototype`, on which the lookup finds a truthy inherited member
and the default guard never fires): for every building-type string that is
neither one of the six specific keys (`hdb`, `condo`, `office`, `mall`,
`landed`, `industrial`) nor an inherited `Object.prototype` property name —
which covers the `"default"` value the geocoder actually produces for
unclassified locations and ordinary arbitrary strings — `estimateWaitTime`
never throws and returns the table's default entry of 5 minutes with
`isOverride = false`. -/
theorem estimateWaitTime_default (bt : String)
    (h : bt ∉ (["hdb", "condo", "office", "mall", "landed", "industrial"] : List String))
    (hp : bt ∉ objectPrototypeKeys) :
    estimateWaitTime bt =
      { minutes := some 5, buildingType := bt, label := some "Unknown",
        description := some "Default estimate", isOverride := false } := by
  simp only [List.mem_cons, List.not_mem_nil, or_false, not_or] at h
  obtain ⟨h1, h2, h3, h4, h5, h6⟩ := h
  unfold estimateWaitTime WAIT_TIMES
  rw [if_neg h1, if_neg h2, if_neg h3, if_neg h4, if_neg h5, if_neg h6]
  by_cases hd : bt = "default"
  · simp [hd, WAIT_TIMES_default, JsProp.minutes, JsProp.label, JsProp.description]
  · rw [if_neg hd, if_neg hp]
    simp [WAIT_TIMES_default, JsProp.minutes, JsProp.label, JsProp.description]

/-- C9 witness at the `"default"` building type and at an ordinary non-key
string: both get the default 5-minute estimate with `isOverride = false`. -/
theorem estimateWaitTime_default_witness :
    (("default" ∉ (["hdb", "condo", "office", "mall", "landed", "industrial"] : List String)) ∧
      ("default" ∉ objectPrototypeKeys) ∧
      estimateWaitTime "default" =
        { minutes := some 5, buildingType := "default", label := some "Unknown",
          description := some "Default estimate", isOverride := false }) ∧
    (("warehouse" ∉ (["hdb", "condo", "office", "mall", "landed", "industrial"] : List String)) ∧
      ("warehouse" ∉ objectPrototypeKeys) ∧
      estimateWaitTime "warehouse" =
        { minutes := some 5, buildingType := "warehouse", label := some "Unknown",
          description := some "Default estimate", isOverride := false }) :=
  ⟨⟨by decide, by decide, estimateWaitTime_default "default" (by decide) (by decide)⟩,
    ⟨by decide, by decide, estimateWaitTime_default "warehouse" (by decide) (by decide)⟩⟩

/-- C10: for every traffic-condition value that is not one of `"light"`,
`"normal"`, `"heavy"` — including `null`/`undefined`, modelled as `none` —
`getTrafficSpeed` returns the default average speed of 25 km/h rather than
failing, so the estimated-leg time computation is total in its
traffic-condition argument. -/
theorem getTrafficSpeed_default (c : Option String)
    (h1 : c ≠ some "light") (h2 : c ≠ some "normal") (h3 : c ≠ some "heavy") :
    getTrafficSpeed c = 25 := by
  cases c with
  | none => rfl
  | some s =>
    simp only [ne_eq, Option.some.injEq] at h1 h2 h3
    simp [getTrafficSpeed, trafficConditions, h1, h2, h3, CONFIG]

/-- C10 witness at `none` (JavaScript `null`/`undefined`) and at an arbitrary
unknown string: both give the 25 km/h default. -/
theorem getTrafficSpeed_default_witness :
    ((none : Option String) ≠ some "light" ∧ (none : Option String) ≠ some "normal" ∧
      (none : Option String) ≠ some "heavy" ∧ getTrafficSpeed none = 25) ∧
    (some "rush" ≠ some "light" ∧ some "rush" ≠ some "normal" ∧
      some "rush" ≠ some "heavy" ∧ getTrafficSpeed (some "rush") = 25) :=
  ⟨⟨by decide, by decide, by decide,
      getTrafficSpeed_default none (by decide) (by decide) (by decide)⟩,
    ⟨by decide, by decide, by decide,
      getTrafficSpeed_default (some "rush") (by decide) (by decide) (by decide)⟩⟩

/-! ## Claim theorems: routing -/

theorem sumBy_eq_sum (legs : List RouteLeg) (f : RouteLeg → ℝ) :
    sumBy legs f = (legs.map f).sum := by
  have key : ∀ (l : List RouteLeg) (a : ℝ),
      l.foldl (fun sum item => sum + f item) a = a + (l.map f).sum := by
    intro l
    induction l with
    | nil => intro a; simp
    | cons x t ih => intro a; simp [ih, add_assoc]
  unfold sumBy
  rw [key]
  simp

theorem zip_tail_getElem (l : List GeoLoc) (i : ℕ) (a b : GeoLoc)
    (ha : l[i]? = some a) (hb : l[i + 1]? = some b) :
    (l.zip l.tail)[i]? = some (a, b) := by
  rw [List.getElem?_zip_eq_some]
  refine ⟨ha, ?_⟩
  rw [← List.drop_one, List.getElem?_drop, Nat.add_comm]
  exact hb

/-- C3: for at least 2 points, `calculateMultiStopRoute` succeeds with exactly
`points.length - 1` legs, `totalDistanceKm` the sum of the legs' distances,
`totalTravelMinutes` the sum of the legs' times, and `hasEstimates` true iff
some leg has `isEstimate = true`. -/
theorem calculateMultiStopRoute_invariants
    (getRoute : ℝ × ℝ → ℝ × ℝ → Option RouteSummary)
    (points : List GeoLoc) (tc : Option String) (det : String)
    (h : 2 ≤ points.length) :
    ∃ r, calculateMultiStopRoute getRoute points tc det = .ok r ∧
      r.legs.length = points.length - 1 ∧
      r.totalDistanceKm = (r.legs.map RouteLeg.distanceKm).sum ∧
      r.totalTravelMinutes = (r.legs.map RouteLeg.timeMinutes).sum ∧
      (r.hasEstimates = true ↔ ∃ leg ∈ r.legs, leg.isEstimate = true) := by
  have hnot : ¬ points.length < 2 := not_lt.mpr h
  refine ⟨{ legs := routeLegs getRoute points (tc.getD det),
            totalDistanceKm := sumBy (routeLegs getRoute points (tc.getD det)) RouteLeg.distanceKm,
            totalTravelMinutes := sumBy (routeLegs getRoute points (tc.getD det)) RouteLeg.timeMinutes,
            hasEstimates := (routeLegs getRoute points (tc.getD det)).any RouteLeg.isEstimate,
            trafficCondition := tc.getD det }, ?_, ?_, ?_, ?_, ?_⟩
  · unfold calculateMultiStopRoute
    rw [if_neg hnot]
  · show (routeLegs getRoute points (tc.getD det)).length = points.length - 1
    unfold routeLegs
    rw [List.length_map, List.length_zip, List.length_tail]
    exact Nat.min_eq_right (Nat.sub_le _ _)
  · exact sumBy_eq_sum _ _
  · exact sumBy_eq_sum _ _
  · show (routeLegs getRoute points (tc.getD det)).any RouteLeg.isEstimate = true ↔ _
    rw [List.any_eq_true]

/-- C3 witness: a concrete 2-point route (with an always-failing service, so
everything is concrete) satisfies the hypothesis and hence the invariants. -/
theorem calculateMultiStopRoute_invariants_witness :
    2 ≤ ([locA, locB] : List GeoLoc).length ∧
    (∃ r, calculateMultiStopRoute noApi [locA, locB] (some "normal") "light" = .ok r ∧
      r.legs.length = ([locA, locB] : List GeoLoc).length - 1 ∧
      r.totalDistanceKm = (r.legs.map RouteLeg.distanceKm).sum ∧
      r.totalTravelMinutes = (r.legs.map RouteLeg.timeMinutes).sum ∧
      (r.hasEstimates = true ↔ ∃ leg ∈ r.legs, leg.isEstimate = true)) :=
  ⟨by simp,
    calculateMultiStopRoute_invariants noApi [locA, locB] (some "normal") "light" (by simp)⟩

/-- C2: whenever the routing call for leg `i` fails, `calculateMultiStopRoute`
does not abort: the whole route still succeeds with all `points.length - 1`
legs, and leg `i` is the estimate whose `distanceKm` is the haversine
great-circle distance times the 1.4 road factor, whose `timeMinutes` is
`distanceKm / trafficSpeed * 60`, and which is marked `isEstimate = true`. -/
theorem calculateMultiStopRoute_fallback
    (getRoute : ℝ × ℝ → ℝ × ℝ → Option RouteSummary)
    (points : List GeoLoc) (tc : Option String) (det : String)
    (i : ℕ) (s e : GeoLoc)
    (h2 : 2 ≤ points.length)
    (hs : points[i]? = some s)
    (he : points[i + 1]? = some e)
    (hfail : getRoute (s.lat, s.lng) (e.lat, e.lng) = none) :
    ∃ r, calculateMultiStopRoute getRoute points tc det = .ok r ∧
      r.legs.length = points.length - 1 ∧
      r.legs[i]? = some
        { fromAddress := s.address, toAddress := e.address,
          distanceKm :=
            calculateStraightLineDistance (s.lat, s.lng) (e.lat, e.lng) * 1.4,
          timeMinutes :=
            calculateStraightLineDistance (s.lat, s.lng) (e.lat, e.lng) * 1.4 /
              (getTrafficSpeed (some (tc.getD det)) : ℝ) * 60,
          isEstimate := true } := by
  have hnot : ¬ points.length < 2 := not_lt.mpr h2
  refine ⟨{ legs := routeLegs getRoute points (tc.getD det),
            totalDistanceKm := sumBy (routeLegs getRoute points (tc.getD det)) RouteLeg.distanceKm,
            totalTravelMinutes := sumBy (routeLegs getRoute points (tc.getD det)) RouteLeg.timeMinutes,
            hasEstimates := (routeLegs getRoute points (tc.getD det)).any RouteLeg.isEstimate,
            trafficCondition := tc.getD det }, ?_, ?_, ?_⟩
  · unfold calculateMultiStopRoute
    rw [if_neg hnot]
  · show (routeLegs getRoute points (tc.getD det)).length = points.length - 1
    unfold routeLegs
    rw [List.length_map, List.length_zip, List.length_tail]
    exact Nat.min_eq_right (Nat.sub_le _ _)
  · show (routeLegs getRoute points (tc.getD det))[i]? = _
    unfold routeLegs
    rw [List.getElem?_map, zip_tail_getElem points i s e hs he]
    simp only [Option.map_some']
    rw [calculateRouteLeg, hfail]
    simp only [Option.map_none']
    rfl

/-- C2 witness: a concrete 2-point route whose only leg's routing call fails
is still produced, with that leg the haversine-based estimate. -/
theorem calculateMultiStopRoute_fallback_witness :
    2 ≤ ([locA, locB] : List GeoLoc).length ∧
    ([locA, locB] : List GeoLoc)[0]? = some locA ∧
    ([locA, locB] : List GeoLoc)[0 + 1]? = some locB ∧
    noApi (locA.lat, locA.lng) (locB.lat, locB.lng) = none ∧
    (∃ r, calculateMultiStopRoute noApi [locA, locB] none "normal" = .ok r ∧
      r.legs.length = ([locA, locB] : List GeoLoc).length - 1 ∧
      r.legs[0]? = some
        { fromAddress := locA.address, toAddress := locB.address,
          distanceKm :=
            calculateStraightLineDistance (locA.lat, locA.lng) (locB.lat, locB.lng) * 1.4,
          timeMinutes :=
            calculateStraightLineDistance (locA.lat, locA.lng) (locB.lat, locB.lng) * 1.4 /
              (getTrafficSpeed (some ((none : Option String).getD "normal")) : ℝ) * 60,
          isEstimate := true }) :=
  ⟨by simp, rfl, rfl, rfl,
    calculateMultiStopRoute_fallback noApi [locA, locB] none "normal" 0 locA locB
      (by simp) rfl rfl rfl⟩

/-! ## Claim theorems: geocoding -/

/-- C7 counterexample to the claim as stated: for the in-bounds coordinate
input `"1.3, 103.8"` with a failing reverse lookup, the returned location's
`buildingType` is `"default"`, not `"unknown"`. -/
theorem geocodeAddress_unknown_counterexample :
    (geocodeAddress failingReverse unusedSearchBranch "1.3, 103.8").toOption.map
        Location.buildingType = some "default" ∧
    (geocodeAddress failingReverse unusedSearchBranch "1.3, 103.8").toOption.map
        Location.buildingType ≠ some "unknown" := by
  have h : (geocodeAddress failingReverse unusedSearchBranch "1.3, 103.8").toOption.map
      Location.buildingType = some "default" := by with_unfolding_all rfl
  exact ⟨h, by rw [h]; decide⟩

/-- C7 (amended: the degraded location's `buildingType` is `"default"`, the
key the wait-time table resolves to its default entry, rather than the
literal string `"unknown"`): for every input that parses as an in-bounds
coordinate pair, if the reverse-geocode lookup fails then `geocodeAddress`
does not propagate the error and returns the raw coordinates as the address
with `buildingType = "default"`. -/
theorem geocodeAddress_reverseFallback
    (reverse : ℚ → ℚ → Option ReverseResult)
    (searchBranch : String → Except String Location)
    (input : String) (lat lng : ℚ)
    (hparse : parseCoordinates input = some (lat, lng))
    (hfail : reverse lat lng = none) :
    geocodeAddress reverse searchBranch input =
      .ok { lat := lat, lng := lng,
            address := toFixed6 lat ++ ", " ++ toFixed6 lng,
            postalCode := "", buildingType := "default", buildingName := "",
            raw := none } := by
  simp [geocodeAddress, hparse, hfail]

/-- C7 witness at `"1.3, 103.8"` with an always-failing reverse lookup. -/
theorem geocodeAddress_reverseFallback_witness :
    parseCoordinates "1.3, 103.8" = some (13/10, 519/5) ∧
    failingReverse (13/10) (519/5) = none ∧
    geocodeAddress failingReverse unusedSearchBranch "1.3, 103.8" =
      .ok { lat := 13/10, lng := 519/5, address := "1.300000, 103.800000",
            postalCode := "", buildingType := "default", buildingName := "",
            raw := none } := by
  have hparse : parseCoordinates "1.3, 103.8" = some (13/10, 519/5) := by
    with_unfolding_all rfl
  refine ⟨hparse, rfl, ?_⟩
  rw [geocodeAddress_reverseFallback failingReverse unusedSearchBranch
    "1.3, 103.8" (13/10) (519/5) hparse rfl]
  have haddr : toFixed6 (13/10 : ℚ) ++ ", " ++ toFixed6 (519/5 : ℚ) =
      "1.300000, 103.800000" := by with_unfolding_all rfl
  rw [haddr]

/-- C8 counterexample to the claim as stated: on text matching no keyword set
the classifier returns `"default"`, not `"unknown"`. -/
theorem detectBuildingType_unknown_counterexample :
    detectBuildingType unmatchedExample = "default" ∧
    detectBuildingType unmatchedExample ≠ "unknown" := by
  constructor
  · decide
  · decide

/-- C8 (amended: the no-match default is the string `"default"`, not
`"unknown"`): building classification tests the concatenated upper-cased
building-name/search-value/address text against the keyword sets in the fixed
precedence HDB → Condo → Office → Mall → Industrial → Landed, first match
winning, with `"default"` when nothing matches; in particular
`"BLK 123 ALJUNIED CONDO"` classifies as `"hdb"` even though it also contains
a condo keyword. -/
theorem detectBuildingType_precedence (ld : SearchResult) :
    (hdbSignal ld = true → detectBuildingType ld = "hdb") ∧
    (hdbSignal ld = false → condoSignal ld = true →
      detectBuildingType ld = "condo") ∧
    (hdbSignal ld = false → condoSignal ld = false → officeSignal ld = true →
      detectBuildingType ld = "office") ∧
    (hdbSignal ld = false → condoSignal ld = false → officeSignal ld = false →
      mallSignal ld = true → detectBuildingType ld = "mall") ∧
    (hdbSignal ld = false → condoSignal ld = false → officeSignal ld = false →
      mallSignal ld = false → industrialSignal ld = true →
      detectBuildingType ld = "industrial") ∧
    (hdbSignal ld = false → condoSignal ld = false → officeSignal ld = false →
      mallSignal ld = false → industrialSignal ld = false →
      landedSignal ld = true → detectBuildingType ld = "landed") ∧
    (hdbSignal ld = false → condoSignal ld = false → officeSignal ld = false →
      mallSignal ld = false → industrialSignal ld = false →
      landedSignal ld = false → detectBuildingType ld = "default") ∧
    detectBuildingType aljuniedExample = "hdb" := by
  have key : detectBuildingType ld =
      if hdbSignal ld then "hdb"
      else if condoSignal ld then "condo"
      else if officeSignal ld then "office"
      else if mallSignal ld then "mall"
      else if industrialSignal ld then "industrial"
      else if landedSignal ld then "landed"
      else "default" := rfl
  refine ⟨?_, ?_, ?_, ?_, ?_, ?_, ?_, by decide⟩
  · intro h1; rw [key]; simp [h1]
  · intro h1 h2; rw [key]; simp [h1, h2]
  · intro h1 h2 h3; rw [key]; simp [h1, h2, h3]
  · intro h1 h2 h3 h4; rw [key]; simp [h1, h2, h3, h4]
  · intro h1 h2 h3 h4 h5; rw [key]; simp [h1, h2, h3, h4, h5]
  · intro h1 h2 h3 h4 h5 h6; rw [key]; simp [h1, h2, h3, h4, h5, h6]
  · intro h1 h2 h3 h4 h5 h6; rw [key]; simp [h1, h2, h3, h4, h5, h6]

/-- C8 witness: the spec's precedence example has the HDB signal (via the
`BLK\s*\d+` pattern) and classifies as `"hdb"` through the first-match-wins
conjunct, despite also carrying a condo keyword. -/
theorem detectBuildingType_precedence_witness :
    hdbSignal aljuniedExample = true ∧
    condoSignal aljuniedExample = true ∧
    detectBuildingType aljuniedExample = "hdb" :=
  ⟨by decide, by decide,
    (detectBuildingType_precedence aljuniedExample).1 (by decide)⟩

end Lalamove
